import Mathlib

/-!
# Textured triangles demo (`CODE.cpp`)

A shallow embedding of `main` from `CODE.cpp`.  The program is a straight line of calls
into GLFW, GLAD, stb_image and OpenGL followed by a render loop.  It is modelled as a
function from the outcomes of its external calls (a `World`) to the sequence of calls it
issues, in program order, together with the value returned from `main`.

Floating-point arithmetic is abstracted by an `Arith` record, so that the same program
text can be run on symbolic terms (`Sym`, executable) and interpreted over the reals.
-/

namespace TexturedTriangles

/-! ## Arithmetic -/

/-- The float operations the program uses: literals, `+`, `*` and `sin`. -/
structure Arith (F : Type) where
  lit : ℚ → F
  add : F → F → F
  mul : F → F → F
  sin : F → F

/-- Symbolic float terms; `clock i` is the time read in frame `i`. -/
inductive Sym where
  | lit (q : ℚ)
  | clock (frame : Nat)
  | add (a b : Sym)
  | mul (a b : Sym)
  | sin (a : Sym)
  deriving DecidableEq

/-- The term algebra as an `Arith`. -/
def symArith : Arith Sym := ⟨Sym.lit, Sym.add, Sym.mul, Sym.sin⟩

/-! ## Constants of the libraries, kept symbolic -/

/-- The OpenGL enumerants named in `CODE.cpp`. -/
inductive GLenum where
  | GL_ARRAY_BUFFER | GL_STATIC_DRAW | GL_FLOAT
  | GL_TEXTURE_2D | GL_TEXTURE_WRAP_S | GL_TEXTURE_WRAP_T
  | GL_TEXTURE_MIN_FILTER | GL_TEXTURE_MAG_FILTER | GL_REPEAT | GL_LINEAR
  | GL_RGBA | GL_RGB | GL_UNSIGNED_BYTE
  | GL_VERTEX_SHADER | GL_FRAGMENT_SHADER
  | GL_COLOR_BUFFER_BIT | GL_TEXTURE0 | GL_TRIANGLES
  deriving DecidableEq, Repr

/-- The window hints set before window creation, with their values. -/
inductive WindowHint where
  | GLFW_CONTEXT_VERSION_MAJOR (v : Int)
  | GLFW_CONTEXT_VERSION_MINOR (v : Int)
  | GLFW_OPENGL_PROFILE_CORE
  deriving DecidableEq, Repr

/-- Size of a `float` in bytes, `sizeof(float)`; `GLfloat` is a 32-bit type. -/
def sizeofFloat : Nat := 4

/-- The global `vertexShaderSource`. -/
def vertexShaderSource : String :=
  "\n#version 330 core\nlayout(location = 0) in vec3 aPos;\nlayout(location = 1) in vec2 aTexCoord;\n\nout vec2 TexCoord;\n\nuniform vec3 offset;\n\nvoid main()\n\x7b\n    gl_Position = vec4(aPos + offset, 1.0);\n    TexCoord = aTexCoord;\n\x7d\n"

/-- The global `fragmentShaderSource`. -/
def fragmentShaderSource : String :=
  "\n#version 330 core\nout vec4 FragColor;\nin vec2 TexCoord;\n\nuniform sampler2D ourTexture;\n\nvoid main()\n\x7b\n    FragColor = texture(ourTexture, TexCoord);\n\x7d\n"

/-- The local array `vertices`: six vertices, position then texture coordinate. -/
def vertices : List ℚ :=
  [ 0.0,  0.5, 0.0,  0.5, 1.0,
   -0.5, -0.5, 0.0,  0.0, 0.0,
    0.5, -0.5, 0.0,  1.0, 0.0,
   -0.5,  0.5, 0.0,  0.0, 1.0,
   -1.0, -0.5, 0.0,  0.0, 0.0,
    0.0, -0.5, 0.0,  1.0, 0.0]

/-! ## Calls and the outside world -/

/-- One external call (or write to `std::cout`) with its arguments.  Calls that hand a new
object name back to the program (`glGen*`, `glCreate*`) also record that name. -/
inductive Call (F : Type) where
  | glfwInit
  | glfwWindowHint (h : WindowHint)
  | glfwCreateWindow (width height : Int) (title : String)
  | glfwTerminate
  | glfwMakeContextCurrent
  | gladLoadGLLoader
  | cout (s : String)
  | glGenVertexArrays (n : Nat) (out : Nat)
  | glGenBuffers (n : Nat) (out : Nat)
  | glBindVertexArray (vao : Nat)
  | glBindBuffer (target : GLenum) (buffer : Nat)
  | glBufferData (target : GLenum) (size : Nat) (data : List ℚ) (usage : GLenum)
  | glVertexAttribPointer (index size : Nat) (type : GLenum) (normalized : Bool)
      (stride pointer : Nat)
  | glEnableVertexAttribArray (index : Nat)
  | glGenTextures (n : Nat) (out : Nat)
  | glBindTexture (target : GLenum) (texture : Nat)
  | glTexParameteri (target pname param : GLenum)
  | stbi_load (filename : String) (req_comp : Int)
  | glTexImage2D (target : GLenum) (level : Int) (internalformat : GLenum)
      (width height border : Int) (format type : GLenum) (pixels : List Nat)
  | glGenerateMipmap (target : GLenum)
  | stbi_image_free
  | glCreateShader (type : GLenum) (ret : Nat)
  | glShaderSource (shader : Nat) (count : Nat) (source : String)
  | glCompileShader (shader : Nat)
  | glCreateProgram (ret : Nat)
  | glAttachShader (program shader : Nat)
  | glLinkProgram (program : Nat)
  | glGetUniformLocation (program : Nat) (name : String)
  | glDeleteShader (shader : Nat)
  | glfwWindowShouldClose
  | glClearColor (r g b a : F)
  | glClear (mask : GLenum)
  | glUseProgram (program : Nat)
  | glActiveTexture (unit : GLenum)
  | glUniform1i (location : Int) (v0 : Int)
  | glfwGetTime
  | glUniform3f (location : Int) (v0 v1 v2 : F)
  | glDrawArrays (mode : GLenum) (first count : Nat)
  | glfwSwapBuffers
  | glfwPollEvents
  | glDeleteVertexArrays (n : Nat) (vao : Nat)
  | glDeleteBuffers (n : Nat) (buffer : Nat)
  | glDeleteProgram (program : Nat)
  | glDeleteTextures (n : Nat) (texture : Nat)

/-- What `stbi_load` hands back when it succeeds. -/
structure Image where
  width : Int
  height : Int
  nrChannels : Int
  data : List Nat
  deriving DecidableEq, Repr

/-- The outcomes of the external calls of one run. -/
structure World (F : Type) where
  /-- `glfwCreateWindow` returned a non-null window. -/
  windowOk : Bool
  /-- `gladLoadGLLoader` returned non-zero. -/
  loaderOk : Bool
  /-- Result of `stbi_load`; `none` is the null pointer. -/
  image : Option Image
  VAO : Nat
  VBO : Nat
  texture : Nat
  vertexShader : Nat
  fragmentShader : Nat
  shaderProgram : Nat
  /-- Compile status of the vertex shader (the program never asks for it). -/
  vertexCompiled : Bool
  /-- Compile status of the fragment shader (the program never asks for it). -/
  fragmentCompiled : Bool
  /-- Link status of the program object (the program never asks for it). -/
  linked : Bool
  /-- Value returned by `glGetUniformLocation(shaderProgram, "offset")`. -/
  offsetLoc : Int
  /-- Value returned by `glGetUniformLocation(shaderProgram, "ourTexture")`. -/
  textureLoc : Int
  /-- Successive answers of `glfwWindowShouldClose`, as far as they were observed. -/
  shouldClose : List Bool
  /-- Value of `(float)glfwGetTime()` in frame `i`. -/
  clock : Nat → F

/-- What a run does: the calls in program order and the value returned from `main`
(`none` while the run is still inside the render loop when the observed answers end). -/
structure Outcome (F : Type) where
  calls : List (Call F)
  exit : Option Int

/-! ## The program -/

variable {F : Type}

/-- Lines 45-50: GLFW initialisation, hints and window creation. -/
def windowCalls : List (Call F) :=
  [ .glfwInit,
    .glfwWindowHint (.GLFW_CONTEXT_VERSION_MAJOR 3),
    .glfwWindowHint (.GLFW_CONTEXT_VERSION_MINOR 3),
    .glfwWindowHint .GLFW_OPENGL_PROFILE_CORE,
    .glfwCreateWindow 800 600 "Textured Triangles" ]

/-- Lines 76-89: vertex array and buffer set-up. -/
def bufferCalls (w : World F) : List (Call F) :=
  [ .glGenVertexArrays 1 w.VAO,
    .glGenBuffers 1 w.VBO,
    .glBindVertexArray w.VAO,
    .glBindBuffer .GL_ARRAY_BUFFER w.VBO,
    .glBufferData .GL_ARRAY_BUFFER (vertices.length * sizeofFloat) vertices .GL_STATIC_DRAW,
    .glVertexAttribPointer 0 3 .GL_FLOAT false (5 * sizeofFloat) 0,
    .glEnableVertexAttribArray 0,
    .glVertexAttribPointer 1 2 .GL_FLOAT false (5 * sizeofFloat) (3 * sizeofFloat),
    .glEnableVertexAttribArray 1 ]

/-- Line 108: `nrChannels == 4 ? GL_RGBA : GL_RGB`. -/
def textureFormat (nrChannels : Int) : GLenum :=
  if nrChannels = 4 then .GL_RGBA else .GL_RGB

/-- Lines 94-116: texture object, parameters, image decode and upload. -/
def textureCalls (w : World F) : List (Call F) :=
  [ .glGenTextures 1 w.texture,
    .glBindTexture .GL_TEXTURE_2D w.texture,
    .glTexParameteri .GL_TEXTURE_2D .GL_TEXTURE_WRAP_S .GL_REPEAT,
    .glTexParameteri .GL_TEXTURE_2D .GL_TEXTURE_WRAP_T .GL_REPEAT,
    .glTexParameteri .GL_TEXTURE_2D .GL_TEXTURE_MIN_FILTER .GL_LINEAR,
    .glTexParameteri .GL_TEXTURE_2D .GL_TEXTURE_MAG_FILTER .GL_LINEAR,
    .stbi_load "image.jpg" 0 ] ++
  (match w.image with
   | some img =>
      [ .glTexImage2D .GL_TEXTURE_2D 0 (textureFormat img.nrChannels) img.width img.height 0
          (textureFormat img.nrChannels) .GL_UNSIGNED_BYTE img.data,
        .glGenerateMipmap .GL_TEXTURE_2D ]
   | none => [ .cout "Failed to load texture\n" ]) ++
  [ .stbi_image_free ]

/-- Lines 121-139: shaders, program, uniform locations. -/
def shaderCalls (w : World F) : List (Call F) :=
  [ .glCreateShader .GL_VERTEX_SHADER w.vertexShader,
    .glShaderSource w.vertexShader 1 vertexShaderSource,
    .glCompileShader w.vertexShader,
    .glCreateShader .GL_FRAGMENT_SHADER w.fragmentShader,
    .glShaderSource w.fragmentShader 1 fragmentShaderSource,
    .glCompileShader w.fragmentShader,
    .glCreateProgram w.shaderProgram,
    .glAttachShader w.shaderProgram w.vertexShader,
    .glAttachShader w.shaderProgram w.fragmentShader,
    .glLinkProgram w.shaderProgram,
    .glGetUniformLocation w.shaderProgram "offset",
    .glGetUniformLocation w.shaderProgram "ourTexture",
    .glDeleteShader w.vertexShader,
    .glDeleteShader w.fragmentShader ]

/-- Lines 146-165: the body of the render loop, for the time `time` read in this frame. -/
def frameCalls (A : Arith F) (w : World F) (time : F) : List (Call F) :=
  [ .glClearColor (A.lit 0.1) (A.lit 0.1) (A.lit 0.2) (A.lit 1.0),
    .glClear .GL_COLOR_BUFFER_BIT,
    .glUseProgram w.shaderProgram,
    .glBindVertexArray w.VAO,
    .glActiveTexture .GL_TEXTURE0,
    .glBindTexture .GL_TEXTURE_2D w.texture,
    .glUniform1i w.textureLoc 0,
    .glfwGetTime,
    .glUniform3f w.offsetLoc (A.add (A.lit 0.5) (A.mul (A.sin time) (A.lit 0.5)))
      (A.lit 0.0) (A.lit 0.0),
    .glDrawArrays .GL_TRIANGLES 0 3,
    .glUniform3f w.offsetLoc (A.lit (-0.5)) (A.lit 0.0) (A.lit 0.0),
    .glDrawArrays .GL_TRIANGLES 3 3,
    .glfwSwapBuffers,
    .glfwPollEvents ]

/-- Lines 144-166: the `while (!glfwWindowShouldClose(window))` loop, run against the
remaining answers, `frame` counting the frames already rendered.  The second component
says whether the loop was left.  When the observed answers run out the query has been
issued and the run is still inside the loop. -/
def renderLoop (A : Arith F) (w : World F) : List Bool → Nat → List (Call F) × Bool
  | [], _ => ([.glfwWindowShouldClose], false)
  | true :: _, _ => ([.glfwWindowShouldClose], true)
  | false :: rest, frame =>
      let r := renderLoop A w rest (frame + 1)
      (.glfwWindowShouldClose :: (frameCalls A w (w.clock frame) ++ r.1), r.2)

/-- Lines 171-176: teardown. -/
def teardownCalls (w : World F) : List (Call F) :=
  [ .glDeleteVertexArrays 1 w.VAO,
    .glDeleteBuffers 1 w.VBO,
    .glDeleteProgram w.shaderProgram,
    .glDeleteTextures 1 w.texture,
    .glfwTerminate ]

/-- The function `main` of `CODE.cpp`. -/
def main (A : Arith F) (w : World F) : Outcome F :=
  if !w.windowOk then
    ⟨windowCalls ++ [.cout "Failed\n", .glfwTerminate], some (-1)⟩
  else if !w.loaderOk then
    ⟨windowCalls ++ [.glfwMakeContextCurrent, .gladLoadGLLoader, .cout "GLAD failed\n"],
      some (-1)⟩
  else
    let loop := renderLoop A w w.shouldClose 0
    if loop.2 then
      ⟨windowCalls ++ [.glfwMakeContextCurrent, .gladLoadGLLoader] ++ bufferCalls w ++
          textureCalls w ++ shaderCalls w ++ loop.1 ++ teardownCalls w, some 0⟩
    else
      ⟨windowCalls ++ [.glfwMakeContextCurrent, .gladLoadGLLoader] ++ bufferCalls w ++
          textureCalls w ++ shaderCalls w ++ loop.1, none⟩

/-! ## Observations on a run -/

/-- Everything written to `std::cout`, in order. -/
def stdout : List (Call F) → String
  | [] => ""
  | .cout s :: cs => s ++ stdout cs
  | _ :: cs => stdout cs

/-- Number of frames the loop renders: the answers `false` before the first `true`. -/
def framesRendered : List Bool → Nat
  | false :: rest => framesRendered rest + 1
  | _ => 0

def isShouldClose : Call F → Bool
  | .glfwWindowShouldClose => true
  | _ => false

def isClear : Call F → Bool
  | .glClear _ => true
  | _ => false

def isDraw : Call F → Bool
  | .glDrawArrays _ _ _ => true
  | _ => false

def isSwap : Call F → Bool
  | .glfwSwapBuffers => true
  | _ => false

def isPoll : Call F → Bool
  | .glfwPollEvents => true
  | _ => false

def isUpload : Call F → Bool
  | .glTexImage2D _ _ _ _ _ _ _ _ _ => true
  | _ => false

def isMipmap : Call F → Bool
  | .glGenerateMipmap _ => true
  | _ => false

def isUniformLookup : Call F → Bool
  | .glGetUniformLocation _ _ => true
  | _ => false

def isUniform1i : Call F → Bool
  | .glUniform1i _ _ => true
  | _ => false

def isUniform3f : Call F → Bool
  | .glUniform3f _ _ _ _ => true
  | _ => false

def isTerminate : Call F → Bool
  | .glfwTerminate => true
  | _ => false

def isDeleteVertexArrays : Call F → Bool
  | .glDeleteVertexArrays _ _ => true
  | _ => false

def isDeleteBuffers : Call F → Bool
  | .glDeleteBuffers _ _ => true
  | _ => false

def isDeleteProgram : Call F → Bool
  | .glDeleteProgram _ => true
  | _ => false

def isDeleteTextures : Call F → Bool
  | .glDeleteTextures _ _ => true
  | _ => false

/-- Calls that create a GPU object. -/
def isCreate : Call F → Bool
  | .glGenVertexArrays _ _ => true
  | .glGenBuffers _ _ => true
  | .glGenTextures _ _ => true
  | .glCreateShader _ _ => true
  | .glCreateProgram _ => true
  | _ => false

/-- A draw call together with the value the uniform at `loc` held when it was issued. -/
structure Draw (F : Type) where
  mode : GLenum
  first : Nat
  count : Nat
  offset : Option (F × F × F)

/-- The vertex indices a draw call covers: `first, ..., first + count - 1`. -/
def Draw.vertexRange (d : Draw F) : List Nat :=
  (List.range d.count).map (fun j => d.first + j)

/-- The draw calls of a call sequence, each with the last value written by `glUniform3f`
to location `loc` before it (`cur` is the value on entry). -/
def drawsOf (loc : Int) : Option (F × F × F) → List (Call F) → List (Draw F)
  | _, [] => []
  | cur, .glUniform3f l x y z :: cs =>
      if l = loc then drawsOf loc (some (x, y, z)) cs else drawsOf loc cur cs
  | cur, .glDrawArrays m first count :: cs => ⟨m, first, count, cur⟩ :: drawsOf loc cur cs
  | cur, _ :: cs => drawsOf loc cur cs

/-- The value of the uniform at `loc` after a call sequence. -/
def offsetAfter (loc : Int) : Option (F × F × F) → List (Call F) → Option (F × F × F)
  | cur, [] => cur
  | cur, .glUniform3f l x y z :: cs =>
      if l = loc then offsetAfter loc (some (x, y, z)) cs else offsetAfter loc cur cs
  | cur, _ :: cs => offsetAfter loc cur cs

/-- A call with the location argument of `glUniform1i` / `glUniform3f` blanked. -/
def eraseLoc : Call F → Call F
  | .glUniform1i _ v => .glUniform1i 0 v
  | .glUniform3f _ x y z => .glUniform3f 0 x y z
  | c => c

/-- A sample run on symbolic floats: the clock in frame `i` reads `Sym.clock i`. -/
def sampleWorld (windowOk loaderOk : Bool) (image : Option Image) (answers : List Bool) :
    World Sym :=
  { windowOk := windowOk, loaderOk := loaderOk, image := image,
    VAO := 1, VBO := 1, texture := 1, vertexShader := 1, fragmentShader := 2,
    shaderProgram := 3, vertexCompiled := true, fragmentCompiled := true, linked := true,
    offsetLoc := 0, textureLoc := 1, shouldClose := answers, clock := Sym.clock }

/-! ## Facts about the loop -/

theorem renderLoop_left (A : Arith F) (w : World F) (l : List Bool) (n : Nat) :
    (renderLoop A w l n).2 = true ↔ true ∈ l := by
  induction l generalizing n with
  | nil => simp [renderLoop]
  | cons b rest ih =>
    cases b
    · simp [renderLoop, ih]
    · simp [renderLoop]

theorem renderLoop_calls (A : Arith F) (w : World F) (l : List Bool) (n : Nat) :
    (renderLoop A w l n).1 =
      (List.range (framesRendered l)).flatMap
        (fun i => Call.glfwWindowShouldClose :: frameCalls A w (w.clock (n + i))) ++
      [Call.glfwWindowShouldClose] := by
  induction l generalizing n with
  | nil => simp [renderLoop, framesRendered]
  | cons b rest ih =>
    cases b
    · simp only [renderLoop, framesRendered, ih, List.range_succ_eq_map, List.flatMap_cons,
        List.flatMap_map, Nat.add_zero, List.cons_append, List.append_assoc]
      congr 3
      apply List.flatMap_congr
      intro i _
      simp [Nat.succ_eq_add_one, Nat.add_assoc, Nat.add_comm 1 i]
    · simp [renderLoop, framesRendered]

theorem renderLoop_countP (A : Arith F) (w : World F) (p : Call F → Bool) (c : Nat)
    (hc : ∀ t, List.countP p (frameCalls A w t) = c) (l : List Bool) (n : Nat) :
    List.countP p (renderLoop A w l n).1 =
      framesRendered l * (c + (if p Call.glfwWindowShouldClose then 1 else 0)) +
        (if p Call.glfwWindowShouldClose then 1 else 0) := by
  induction l generalizing n with
  | nil => simp [renderLoop, framesRendered, List.countP_cons]
  | cons b rest ih =>
    cases b
    · simp only [renderLoop, framesRendered, List.countP_cons, List.countP_append, hc, ih]
      ring
    · simp [renderLoop, framesRendered, List.countP_cons]

/-- The run when both the window and the loader are available. -/
theorem main_calls_ok (A : Arith F) (w : World F) (hw : w.windowOk = true)
    (hl : w.loaderOk = true) :
    (main A w).calls =
      windowCalls ++ [Call.glfwMakeContextCurrent, Call.gladLoadGLLoader] ++ bufferCalls w ++
        textureCalls w ++ shaderCalls w ++ (renderLoop A w w.shouldClose 0).1 ++
        (if true ∈ w.shouldClose then teardownCalls w else []) := by
  by_cases h : true ∈ w.shouldClose
  · have h2 := (renderLoop_left A w w.shouldClose 0).2 h
    simp [main, hw, hl, h2, h]
  · have h2 : (renderLoop A w w.shouldClose 0).2 = false := by
      cases h3 : (renderLoop A w w.shouldClose 0).2
      · rfl
      · exact absurd ((renderLoop_left A w w.shouldClose 0).1 h3) h
    simp [main, hw, hl, h2, h]

theorem main_exit_ok (A : Arith F) (w : World F) (hw : w.windowOk = true)
    (hl : w.loaderOk = true) :
    (main A w).exit = if true ∈ w.shouldClose then some 0 else none := by
  by_cases h : true ∈ w.shouldClose
  · have h2 := (renderLoop_left A w w.shouldClose 0).2 h
    simp [main, hw, hl, h2, h]
  · have h2 : (renderLoop A w w.shouldClose 0).2 = false := by
      cases h3 : (renderLoop A w w.shouldClose 0).2
      · rfl
      · exact absurd ((renderLoop_left A w w.shouldClose 0).1 h3) h
    simp [main, hw, hl, h2, h]

theorem main_countP (A : Arith F) (w : World F) (p : Call F → Bool) (c : Nat)
    (hc : ∀ t, List.countP p (frameCalls A w t) = c) (hw : w.windowOk = true)
    (hl : w.loaderOk = true) :
    List.countP p (main A w).calls =
      List.countP p (windowCalls ++ [Call.glfwMakeContextCurrent, Call.gladLoadGLLoader]) +
        List.countP p (bufferCalls w) + List.countP p (textureCalls w) +
        List.countP p (shaderCalls w) +
        (framesRendered w.shouldClose * (c + (if p Call.glfwWindowShouldClose then 1 else 0)) +
          (if p Call.glfwWindowShouldClose then 1 else 0)) +
        (if true ∈ w.shouldClose then List.countP p (teardownCalls w) else 0) := by
  rw [main_calls_ok A w hw hl]
  simp only [List.countP_append, renderLoop_countP A w p c hc]
  by_cases h : true ∈ w.shouldClose <;> simp [h]

theorem stdout_append (a b : List (Call F)) : stdout (a ++ b) = stdout a ++ stdout b := by
  induction a with
  | nil => simp [stdout]
  | cons c cs ih => cases c <;> simp [stdout, ih, String.append_assoc]

theorem stdout_renderLoop (A : Arith F) (w : World F) (l : List Bool) (n : Nat) :
    stdout (renderLoop A w l n).1 = "" := by
  induction l generalizing n with
  | nil => rfl
  | cons b rest ih =>
    cases b
    · have h : ∀ t, stdout (frameCalls A w t) = "" := fun _ => rfl
      simp [renderLoop, stdout, stdout_append, h, ih]
    · rfl

/-- The loop does not look at the decoded image. -/
theorem renderLoop_image (A : Arith F) (w : World F) (img : Option Image) (l : List Bool)
    (n : Nat) :
    renderLoop A { w with image := img } l n = renderLoop A w l n := by
  induction l generalizing n with
  | nil => rfl
  | cons b rest ih =>
    cases b
    · simp only [renderLoop, ih]
      rfl
    · rfl

/-- Counting in the texture set-up does not depend on the decode result for a predicate
that is false on the upload, the mipmap generation and the failure message. -/
theorem textureCalls_countP (w : World F) (p : Call F → Bool)
    (h1 : p (Call.cout "Failed to load texture\n") = false)
    (h2 : ∀ a b c d e f g h i, p (Call.glTexImage2D a b c d e f g h i) = false)
    (h3 : ∀ a, p (Call.glGenerateMipmap a) = false) :
    List.countP p (textureCalls w) =
      List.countP p [ Call.glGenTextures 1 w.texture,
        Call.glBindTexture .GL_TEXTURE_2D w.texture,
        Call.glTexParameteri .GL_TEXTURE_2D .GL_TEXTURE_WRAP_S .GL_REPEAT,
        Call.glTexParameteri .GL_TEXTURE_2D .GL_TEXTURE_WRAP_T .GL_REPEAT,
        Call.glTexParameteri .GL_TEXTURE_2D .GL_TEXTURE_MIN_FILTER .GL_LINEAR,
        Call.glTexParameteri .GL_TEXTURE_2D .GL_TEXTURE_MAG_FILTER .GL_LINEAR,
        Call.stbi_load "image.jpg" 0, Call.stbi_image_free ] := by
  cases hi : w.image <;> simp [textureCalls, hi, List.countP_cons, h1, h2, h3]

theorem drawsOf_append (loc : Int) (cur : Option (F × F × F)) (a b : List (Call F)) :
    drawsOf loc cur (a ++ b) = drawsOf loc cur a ++ drawsOf loc (offsetAfter loc cur a) b := by
  induction a generalizing cur with
  | nil => simp [drawsOf, offsetAfter]
  | cons c cs ih =>
    cases c <;> simp [drawsOf, offsetAfter, ih]
    split <;> simp [ih]

/-- The draw calls of the loop: two per rendered frame. -/
theorem drawsOf_renderLoop (A : Arith F) (w : World F) (cur : Option (F × F × F))
    (l : List Bool) (n : Nat) :
    drawsOf w.offsetLoc cur (renderLoop A w l n).1 =
      (List.range (framesRendered l)).flatMap (fun i =>
        [ (⟨.GL_TRIANGLES, 0, 3,
            some (A.add (A.lit 0.5) (A.mul (A.sin (w.clock (n + i))) (A.lit 0.5)),
              A.lit 0.0, A.lit 0.0)⟩ : Draw F),
          ⟨.GL_TRIANGLES, 3, 3, some (A.lit (-0.5), A.lit 0.0, A.lit 0.0)⟩ ]) := by
  have hframe : ∀ (cur : Option (F × F × F)) (t : F) (r : List (Call F)),
      drawsOf w.offsetLoc cur (Call.glfwWindowShouldClose :: (frameCalls A w t ++ r)) =
        (⟨.GL_TRIANGLES, 0, 3,
            some (A.add (A.lit 0.5) (A.mul (A.sin t) (A.lit 0.5)), A.lit 0.0, A.lit 0.0)⟩ :
          Draw F) ::
        ⟨.GL_TRIANGLES, 3, 3, some (A.lit (-0.5), A.lit 0.0, A.lit 0.0)⟩ ::
        drawsOf w.offsetLoc (some (A.lit (-0.5), A.lit 0.0, A.lit 0.0)) r := by
    intro cur t r
    simp [frameCalls, drawsOf]
  induction l generalizing n cur with
  | nil => simp [renderLoop, framesRendered, drawsOf]
  | cons b rest ih =>
    cases b
    · have hstep : (renderLoop A w (false :: rest) n).1 =
          Call.glfwWindowShouldClose ::
            (frameCalls A w (w.clock n) ++ (renderLoop A w rest (n + 1)).1) := rfl
      rw [hstep, hframe, ih]
      simp only [framesRendered, List.range_succ_eq_map, List.flatMap_cons, List.flatMap_map,
        Nat.add_zero, List.cons_append, List.nil_append]
      congr 2
      apply List.flatMap_congr
      intro i _
      simp [Nat.succ_eq_add_one, Nat.add_assoc, Nat.add_comm 1 i]
    · simp [renderLoop, framesRendered, drawsOf]

/-- The draw calls of a whole run that gets past initialisation. -/
theorem drawsOf_main (A : Arith F) (w : World F) (hw : w.windowOk = true)
    (hl : w.loaderOk = true) :
    drawsOf w.offsetLoc none (main A w).calls =
      (List.range (framesRendered w.shouldClose)).flatMap (fun i =>
        [ (⟨.GL_TRIANGLES, 0, 3,
            some (A.add (A.lit 0.5) (A.mul (A.sin (w.clock i)) (A.lit 0.5)),
              A.lit 0.0, A.lit 0.0)⟩ : Draw F),
          ⟨.GL_TRIANGLES, 3, 3, some (A.lit (-0.5), A.lit 0.0, A.lit 0.0)⟩ ]) := by
  have h1 : ∀ cur, drawsOf w.offsetLoc cur (windowCalls ++
      [Call.glfwMakeContextCurrent, Call.gladLoadGLLoader] ++ bufferCalls w ++
      textureCalls w ++ shaderCalls w) = [] := by
    intro cur
    cases hi : w.image <;>
      simp [windowCalls, bufferCalls, textureCalls, shaderCalls, hi, drawsOf]
  have h2 : ∀ cur, drawsOf w.offsetLoc cur
      (if true ∈ w.shouldClose then teardownCalls w else []) = [] := by
    intro cur
    by_cases h : true ∈ w.shouldClose <;> simp [h, teardownCalls, drawsOf]
  rw [main_calls_ok A w hw hl, drawsOf_append, drawsOf_append, h1, h2, drawsOf_renderLoop]
  simp

theorem getElem?_flatMap_pair {α β : Type} (f g : α → β) (l : List α) (i : Nat) :
    (l.flatMap (fun a => [f a, g a]))[2 * i]? = l[i]?.map f := by
  induction l generalizing i with
  | nil => simp
  | cons a as ih =>
    cases i with
    | zero => simp
    | succ j =>
      have h : 2 * (j + 1) = 2 * j + 1 + 1 := by ring
      simp [h, ih]

/-- C1: the value returned from `main` is `-1` exactly when window creation fails or the
window is created and the GPU function loader fails; it is `0` exactly on the runs that
leave the render loop; a run still inside the loop has returned nothing; no other value
is possible. -/
theorem exit_code (A : Arith F) (w : World F) :
    ((main A w).exit = some (-1) ↔
        (w.windowOk = false ∨ (w.windowOk = true ∧ w.loaderOk = false))) ∧
    ((main A w).exit = some 0 ↔
        (w.windowOk = true ∧ w.loaderOk = true ∧ true ∈ w.shouldClose)) ∧
    ((main A w).exit = none ↔
        (w.windowOk = true ∧ w.loaderOk = true ∧ true ∉ w.shouldClose)) ∧
    ((main A w).exit = none ∨ (main A w).exit = some 0 ∨ (main A w).exit = some (-1)) := by
  cases hw : w.windowOk
  · simp [main, hw]
  · cases hl : w.loaderOk
    · simp [main, hw, hl]
    · rw [main_exit_ok A w hw hl]
      by_cases h : true ∈ w.shouldClose <;> simp [h]

/-! ## The two hard failures -/

/-- C10: when window creation fails the run is exactly: GLFW set-up, the failed
`glfwCreateWindow`, `"Failed\n"` on standard output, `glfwTerminate`, return `-1`; when the
loader fails it is: GLFW set-up, window creation, `glfwMakeContextCurrent`, the failed
`gladLoadGLLoader`, `"GLAD failed\n"`, return `-1`, with no `glfwTerminate`.  Neither run
creates a GPU object, queries the close flag, or draws. -/
theorem hard_failures (A : Arith F) (w : World F) :
    (w.windowOk = false →
      (main A w).calls =
        [ Call.glfwInit,
          Call.glfwWindowHint (.GLFW_CONTEXT_VERSION_MAJOR 3),
          Call.glfwWindowHint (.GLFW_CONTEXT_VERSION_MINOR 3),
          Call.glfwWindowHint .GLFW_OPENGL_PROFILE_CORE,
          Call.glfwCreateWindow 800 600 "Textured Triangles",
          Call.cout "Failed\n",
          Call.glfwTerminate ] ∧
      (main A w).exit = some (-1) ∧
      stdout (main A w).calls = "Failed\n" ∧
      List.countP isTerminate (main A w).calls = 1 ∧
      List.countP isCreate (main A w).calls = 0 ∧
      List.countP isShouldClose (main A w).calls = 0 ∧
      List.countP isDraw (main A w).calls = 0) ∧
    (w.windowOk = true → w.loaderOk = false →
      (main A w).calls =
        [ Call.glfwInit,
          Call.glfwWindowHint (.GLFW_CONTEXT_VERSION_MAJOR 3),
          Call.glfwWindowHint (.GLFW_CONTEXT_VERSION_MINOR 3),
          Call.glfwWindowHint .GLFW_OPENGL_PROFILE_CORE,
          Call.glfwCreateWindow 800 600 "Textured Triangles",
          Call.glfwMakeContextCurrent,
          Call.gladLoadGLLoader,
          Call.cout "GLAD failed\n" ] ∧
      (main A w).exit = some (-1) ∧
      stdout (main A w).calls = "GLAD failed\n" ∧
      List.countP isTerminate (main A w).calls = 0 ∧
      List.countP isCreate (main A w).calls = 0 ∧
      List.countP isShouldClose (main A w).calls = 0 ∧
      List.countP isDraw (main A w).calls = 0) := by
  constructor
  · intro hw
    have hc : (main A w).calls = windowCalls ++ [Call.cout "Failed\n", Call.glfwTerminate] := by
      simp [main, hw]
    have he : (main A w).exit = some (-1) := by simp [main, hw]
    rw [hc, he]
    exact ⟨rfl, rfl, rfl, rfl, rfl, rfl, rfl⟩
  · intro hw hl
    have hc : (main A w).calls = windowCalls ++
        [Call.glfwMakeContextCurrent, Call.gladLoadGLLoader, Call.cout "GLAD failed\n"] := by
      simp [main, hw, hl]
    have he : (main A w).exit = some (-1) := by simp [main, hw, hl]
    rw [hc, he]
    exact ⟨rfl, rfl, rfl, rfl, rfl, rfl, rfl⟩

theorem hard_failures_witness :
    ((sampleWorld false true none [false, true]).windowOk = false ∧
      (main symArith (sampleWorld false true none [false, true])).exit = some (-1) ∧
      stdout (main symArith (sampleWorld false true none [false, true])).calls = "Failed\n" ∧
      List.countP isTerminate
        (main symArith (sampleWorld false true none [false, true])).calls = 1) ∧
    ((sampleWorld true false none [false, true]).windowOk = true ∧
      (sampleWorld true false none [false, true]).loaderOk = false ∧
      (main symArith (sampleWorld true false none [false, true])).exit = some (-1) ∧
      stdout (main symArith (sampleWorld true false none [false, true])).calls
        = "GLAD failed\n" ∧
      List.countP isTerminate
        (main symArith (sampleWorld true false none [false, true])).calls = 0) :=
  have h1 := (hard_failures symArith (sampleWorld false true none [false, true])).1 rfl
  have h2 := (hard_failures symArith (sampleWorld true false none [false, true])).2 rfl rfl
  ⟨⟨rfl, h1.2.1, h1.2.2.1, h1.2.2.2.1⟩, ⟨rfl, rfl, h2.2.1, h2.2.2.1, h2.2.2.2.1⟩⟩

/-! ## Texture decode -/

/-- C2: when the window and the loader are available and `stbi_load` returns null, the
run writes exactly `"Failed to load texture\n"` to standard output, issues no
`glTexImage2D` and no `glGenerateMipmap`, does not return `-1`, enters the render loop
(the close flag is queried once more than frames are rendered), returns `0` exactly when
the loop is left, and is call for call the run of the decode-success case with the
upload and mipmap calls replaced by the message; the exit value is the same. -/
theorem decode_failure_soft (A : Arith F) (w : World F) (hw : w.windowOk = true)
    (hl : w.loaderOk = true) (himg : w.image = none) :
    stdout (main A w).calls = "Failed to load texture\n" ∧
    List.countP isUpload (main A w).calls = 0 ∧
    List.countP isMipmap (main A w).calls = 0 ∧
    (main A w).exit ≠ some (-1) ∧
    List.countP isShouldClose (main A w).calls = framesRendered w.shouldClose + 1 ∧
    List.countP isSwap (main A w).calls = framesRendered w.shouldClose ∧
    ((main A w).exit = some 0 ↔ true ∈ w.shouldClose) ∧
    ∀ img : Image,
      (main A { w with image := some img }).exit = (main A w).exit ∧
      ∃ init rest : List (Call F),
        (main A w).calls = init ++ [Call.cout "Failed to load texture\n"] ++ rest ∧
        (main A { w with image := some img }).calls =
          init ++ [Call.glTexImage2D .GL_TEXTURE_2D 0 (textureFormat img.nrChannels)
                      img.width img.height 0 (textureFormat img.nrChannels)
                      .GL_UNSIGNED_BYTE img.data,
                   Call.glGenerateMipmap .GL_TEXTURE_2D] ++ rest := by
  have htex : textureCalls w =
      [ Call.glGenTextures 1 w.texture,
        Call.glBindTexture .GL_TEXTURE_2D w.texture,
        Call.glTexParameteri .GL_TEXTURE_2D .GL_TEXTURE_WRAP_S .GL_REPEAT,
        Call.glTexParameteri .GL_TEXTURE_2D .GL_TEXTURE_WRAP_T .GL_REPEAT,
        Call.glTexParameteri .GL_TEXTURE_2D .GL_TEXTURE_MIN_FILTER .GL_LINEAR,
        Call.glTexParameteri .GL_TEXTURE_2D .GL_TEXTURE_MAG_FILTER .GL_LINEAR,
        Call.stbi_load "image.jpg" 0,
        Call.cout "Failed to load texture\n",
        Call.stbi_image_free ] := by
    simp [textureCalls, himg]
  refine ⟨?_, ?_, ?_, ?_, ?_, ?_, ?_, ?_⟩
  · rw [main_calls_ok A w hw hl]
    simp only [stdout_append, stdout_renderLoop, htex]
    by_cases h : true ∈ w.shouldClose <;>
      simp [h, windowCalls, bufferCalls, shaderCalls, teardownCalls, stdout]
  · rw [main_countP A w isUpload 0 (fun _ => rfl) hw hl, htex]
    by_cases h : true ∈ w.shouldClose <;>
      simp [h, windowCalls, bufferCalls, shaderCalls, teardownCalls, isUpload]
  · rw [main_countP A w isMipmap 0 (fun _ => rfl) hw hl, htex]
    by_cases h : true ∈ w.shouldClose <;>
      simp [h, windowCalls, bufferCalls, shaderCalls, teardownCalls, isMipmap]
  · rw [main_exit_ok A w hw hl]
    by_cases h : true ∈ w.shouldClose <;> simp [h]
  · rw [main_countP A w isShouldClose 0 (fun _ => rfl) hw hl, htex]
    by_cases h : true ∈ w.shouldClose <;>
      simp [h, windowCalls, bufferCalls, shaderCalls, teardownCalls, isShouldClose]
  · rw [main_countP A w isSwap 1 (fun _ => rfl) hw hl, htex]
    by_cases h : true ∈ w.shouldClose <;>
      simp [h, windowCalls, bufferCalls, shaderCalls, teardownCalls, isSwap]
  · rw [main_exit_ok A w hw hl]
    by_cases h : true ∈ w.shouldClose <;> simp [h]
  · intro img
    refine ⟨?_, ?_⟩
    · rw [main_exit_ok A w hw hl, main_exit_ok A { w with image := some img } hw hl]
    · refine ⟨windowCalls ++ [Call.glfwMakeContextCurrent, Call.gladLoadGLLoader] ++
          bufferCalls w ++
          [ Call.glGenTextures 1 w.texture,
            Call.glBindTexture .GL_TEXTURE_2D w.texture,
            Call.glTexParameteri .GL_TEXTURE_2D .GL_TEXTURE_WRAP_S .GL_REPEAT,
            Call.glTexParameteri .GL_TEXTURE_2D .GL_TEXTURE_WRAP_T .GL_REPEAT,
            Call.glTexParameteri .GL_TEXTURE_2D .GL_TEXTURE_MIN_FILTER .GL_LINEAR,
            Call.glTexParameteri .GL_TEXTURE_2D .GL_TEXTURE_MAG_FILTER .GL_LINEAR,
            Call.stbi_load "image.jpg" 0 ],
          [Call.stbi_image_free] ++ shaderCalls w ++ (renderLoop A w w.shouldClose 0).1 ++
            (if true ∈ w.shouldClose then teardownCalls w else []), ?_, ?_⟩
      · rw [main_calls_ok A w hw hl, htex]
        simp
      · rw [main_calls_ok A { w with image := some img } hw hl, renderLoop_image]
        simp [textureCalls, bufferCalls, shaderCalls, teardownCalls]

theorem decode_failure_soft_witness :
    (sampleWorld true true none [false, false, true]).windowOk = true ∧
    (sampleWorld true true none [false, false, true]).loaderOk = true ∧
    (sampleWorld true true none [false, false, true]).image = none ∧
    stdout (main symArith (sampleWorld true true none [false, false, true])).calls
      = "Failed to load texture\n" ∧
    List.countP isUpload
      (main symArith (sampleWorld true true none [false, false, true])).calls = 0 ∧
    List.countP isSwap
      (main symArith (sampleWorld true true none [false, false, true])).calls = 2 ∧
    (main symArith (sampleWorld true true none [false, false, true])).exit = some 0 :=
  have h := decode_failure_soft symArith (sampleWorld true true none [false, false, true])
    rfl rfl rfl
  ⟨rfl, rfl, rfl, h.1, h.2.1, h.2.2.2.2.2.1, h.2.2.2.2.2.2.1.2 (by decide)⟩

/-- C5: when the window and the loader are available and `stbi_load` returns an image
with `n` channels, the run issues, right after `stbi_load`, one `glTexImage2D` whose
internal format and pixel format are both `GL_RGBA` if `n = 4` and `GL_RGB` otherwise,
immediately followed by one `glGenerateMipmap`; these are the only upload and the only
mipmap generation of the run. -/
theorem upload_format (A : Arith F) (w : World F) (img : Image) (hw : w.windowOk = true)
    (hl : w.loaderOk = true) (himg : w.image = some img) :
    (∃ init rest : List (Call F),
      (main A w).calls =
        init ++
          [ Call.stbi_load "image.jpg" 0,
            Call.glTexImage2D .GL_TEXTURE_2D 0
              (if img.nrChannels = 4 then GLenum.GL_RGBA else GLenum.GL_RGB)
              img.width img.height 0
              (if img.nrChannels = 4 then GLenum.GL_RGBA else GLenum.GL_RGB)
              .GL_UNSIGNED_BYTE img.data,
            Call.glGenerateMipmap .GL_TEXTURE_2D,
            Call.stbi_image_free ] ++ rest) ∧
    List.countP isUpload (main A w).calls = 1 ∧
    List.countP isMipmap (main A w).calls = 1 ∧
    stdout (main A w).calls = "" := by
  have htex : textureCalls w =
      [ Call.glGenTextures 1 w.texture,
        Call.glBindTexture .GL_TEXTURE_2D w.texture,
        Call.glTexParameteri .GL_TEXTURE_2D .GL_TEXTURE_WRAP_S .GL_REPEAT,
        Call.glTexParameteri .GL_TEXTURE_2D .GL_TEXTURE_WRAP_T .GL_REPEAT,
        Call.glTexParameteri .GL_TEXTURE_2D .GL_TEXTURE_MIN_FILTER .GL_LINEAR,
        Call.glTexParameteri .GL_TEXTURE_2D .GL_TEXTURE_MAG_FILTER .GL_LINEAR,
        Call.stbi_load "image.jpg" 0,
        Call.glTexImage2D .GL_TEXTURE_2D 0
          (if img.nrChannels = 4 then GLenum.GL_RGBA else GLenum.GL_RGB)
          img.width img.height 0
          (if img.nrChannels = 4 then GLenum.GL_RGBA else GLenum.GL_RGB)
          .GL_UNSIGNED_BYTE img.data,
        Call.glGenerateMipmap .GL_TEXTURE_2D,
        Call.stbi_image_free ] := by
    simp [textureCalls, himg, textureFormat]
  refine ⟨?_, ?_, ?_, ?_⟩
  · refine ⟨windowCalls ++ [Call.glfwMakeContextCurrent, Call.gladLoadGLLoader] ++
        bufferCalls w ++
        [ Call.glGenTextures 1 w.texture,
          Call.glBindTexture .GL_TEXTURE_2D w.texture,
          Call.glTexParameteri .GL_TEXTURE_2D .GL_TEXTURE_WRAP_S .GL_REPEAT,
          Call.glTexParameteri .GL_TEXTURE_2D .GL_TEXTURE_WRAP_T .GL_REPEAT,
          Call.glTexParameteri .GL_TEXTURE_2D .GL_TEXTURE_MIN_FILTER .GL_LINEAR,
          Call.glTexParameteri .GL_TEXTURE_2D .GL_TEXTURE_MAG_FILTER .GL_LINEAR ],
        shaderCalls w ++ (renderLoop A w w.shouldClose 0).1 ++
          (if true ∈ w.shouldClose then teardownCalls w else []), ?_⟩
    rw [main_calls_ok A w hw hl, htex]
    simp
  · rw [main_countP A w isUpload 0 (fun _ => rfl) hw hl, htex]
    by_cases h : true ∈ w.shouldClose <;>
      simp [h, windowCalls, bufferCalls, shaderCalls, teardownCalls, isUpload]
  · rw [main_countP A w isMipmap 0 (fun _ => rfl) hw hl, htex]
    by_cases h : true ∈ w.shouldClose <;>
      simp [h, windowCalls, bufferCalls, shaderCalls, teardownCalls, isMipmap]
  · rw [main_calls_ok A w hw hl]
    simp only [stdout_append, stdout_renderLoop, htex]
    by_cases h : true ∈ w.shouldClose <;>
      simp [h, windowCalls, bufferCalls, shaderCalls, teardownCalls, stdout]

theorem upload_format_witness :
    (sampleWorld true true (some ⟨64, 32, 2, []⟩) [true]).windowOk = true ∧
    (sampleWorld true true (some ⟨64, 32, 2, []⟩) [true]).loaderOk = true ∧
    (sampleWorld true true (some ⟨64, 32, 2, []⟩) [true]).image = some ⟨64, 32, 2, []⟩ ∧
    (∃ init rest : List (Call Sym),
      (main symArith (sampleWorld true true (some ⟨64, 32, 2, []⟩) [true])).calls =
        init ++
          [ Call.stbi_load "image.jpg" 0,
            Call.glTexImage2D .GL_TEXTURE_2D 0 .GL_RGB 64 32 0 .GL_RGB .GL_UNSIGNED_BYTE [],
            Call.glGenerateMipmap .GL_TEXTURE_2D,
            Call.stbi_image_free ] ++ rest) ∧
    List.countP isUpload
      (main symArith (sampleWorld true true (some ⟨64, 32, 2, []⟩) [true])).calls = 1 :=
  have h := upload_format symArith (sampleWorld true true (some ⟨64, 32, 2, []⟩) [true])
    ⟨64, 32, 2, []⟩ rfl rfl rfl
  ⟨rfl, rfl, rfl, h.1, h.2.1⟩

/-! ## Render loop and teardown -/

/-- C8: when the window and the loader are available and the close flag answers `false`
`k` times and then `true`, the run is: the initialisation (which neither queries the flag
nor renders), then `k` times one query followed by the fourteen calls of one frame, then
one last query, then the teardown `glDeleteVertexArrays`, `glDeleteBuffers`,
`glDeleteProgram`, `glDeleteTextures`, `glfwTerminate`, and `main` returns `0`.  The run
contains `k + 1` queries, `k` clears, `2 * k` draw calls, `k` buffer swaps, `k` event
polls, and one of each of the five teardown calls. -/
theorem loop_frames (A : Arith F) (w : World F) (k : Nat) (later : List Bool)
    (hw : w.windowOk = true) (hl : w.loaderOk = true)
    (hc : w.shouldClose = List.replicate k false ++ true :: later) :
    (∃ init : List (Call F),
      List.countP isShouldClose init = 0 ∧ List.countP isClear init = 0 ∧
      List.countP isDraw init = 0 ∧ List.countP isSwap init = 0 ∧
      List.countP isPoll init = 0 ∧
      (main A w).calls =
        init ++
          (List.range k).flatMap (fun i =>
            [ Call.glfwWindowShouldClose,
              Call.glClearColor (A.lit 0.1) (A.lit 0.1) (A.lit 0.2) (A.lit 1.0),
              Call.glClear .GL_COLOR_BUFFER_BIT,
              Call.glUseProgram w.shaderProgram,
              Call.glBindVertexArray w.VAO,
              Call.glActiveTexture .GL_TEXTURE0,
              Call.glBindTexture .GL_TEXTURE_2D w.texture,
              Call.glUniform1i w.textureLoc 0,
              Call.glfwGetTime,
              Call.glUniform3f w.offsetLoc
                (A.add (A.lit 0.5) (A.mul (A.sin (w.clock i)) (A.lit 0.5)))
                (A.lit 0.0) (A.lit 0.0),
              Call.glDrawArrays .GL_TRIANGLES 0 3,
              Call.glUniform3f w.offsetLoc (A.lit (-0.5)) (A.lit 0.0) (A.lit 0.0),
              Call.glDrawArrays .GL_TRIANGLES 3 3,
              Call.glfwSwapBuffers,
              Call.glfwPollEvents ]) ++
          [ Call.glfwWindowShouldClose,
            Call.glDeleteVertexArrays 1 w.VAO,
            Call.glDeleteBuffers 1 w.VBO,
            Call.glDeleteProgram w.shaderProgram,
            Call.glDeleteTextures 1 w.texture,
            Call.glfwTerminate ]) ∧
    List.countP isShouldClose (main A w).calls = k + 1 ∧
    List.countP isClear (main A w).calls = k ∧
    List.countP isDraw (main A w).calls = 2 * k ∧
    List.countP isSwap (main A w).calls = k ∧
    List.countP isPoll (main A w).calls = k ∧
    (main A w).exit = some 0 ∧
    List.countP isDeleteVertexArrays (main A w).calls = 1 ∧
    List.countP isDeleteBuffers (main A w).calls = 1 ∧
    List.countP isDeleteProgram (main A w).calls = 1 ∧
    List.countP isDeleteTextures (main A w).calls = 1 ∧
    List.countP isTerminate (main A w).calls = 1 := by
  have hmem : true ∈ w.shouldClose := by simp [hc]
  have hfr : framesRendered w.shouldClose = k := by
    rw [hc]
    clear hc hmem
    induction k with
    | zero => simp [framesRendered]
    | succ n ih => simp [List.replicate_succ, framesRendered, ih]
  have htex := textureCalls_countP w
  refine ⟨⟨windowCalls ++ [Call.glfwMakeContextCurrent, Call.gladLoadGLLoader] ++
      bufferCalls w ++ textureCalls w ++ shaderCalls w, ?_, ?_, ?_, ?_, ?_, ?_⟩,
      ?_, ?_, ?_, ?_, ?_, ?_, ?_, ?_, ?_, ?_, ?_⟩
  · simp only [List.countP_append, htex isShouldClose rfl (fun _ _ _ _ _ _ _ _ _ => rfl)
      (fun _ => rfl)]
    rfl
  · simp only [List.countP_append, htex isClear rfl (fun _ _ _ _ _ _ _ _ _ => rfl)
      (fun _ => rfl)]
    rfl
  · simp only [List.countP_append, htex isDraw rfl (fun _ _ _ _ _ _ _ _ _ => rfl)
      (fun _ => rfl)]
    rfl
  · simp only [List.countP_append, htex isSwap rfl (fun _ _ _ _ _ _ _ _ _ => rfl)
      (fun _ => rfl)]
    rfl
  · simp only [List.countP_append, htex isPoll rfl (fun _ _ _ _ _ _ _ _ _ => rfl)
      (fun _ => rfl)]
    rfl
  · rw [main_calls_ok A w hw hl, renderLoop_calls, hfr]
    simp [hmem, frameCalls, teardownCalls]
  · rw [main_countP A w isShouldClose 0 (fun _ => rfl) hw hl, hfr,
      htex isShouldClose rfl (fun _ _ _ _ _ _ _ _ _ => rfl) (fun _ => rfl)]
    simp [hmem, windowCalls, bufferCalls, shaderCalls, teardownCalls, isShouldClose]
  · rw [main_countP A w isClear 1 (fun _ => rfl) hw hl, hfr,
      htex isClear rfl (fun _ _ _ _ _ _ _ _ _ => rfl) (fun _ => rfl)]
    simp [hmem, windowCalls, bufferCalls, shaderCalls, teardownCalls, isClear]
  · rw [main_countP A w isDraw 2 (fun _ => rfl) hw hl, hfr,
      htex isDraw rfl (fun _ _ _ _ _ _ _ _ _ => rfl) (fun _ => rfl)]
    simp [hmem, windowCalls, bufferCalls, shaderCalls, teardownCalls, isDraw]
    omega
  · rw [main_countP A w isSwap 1 (fun _ => rfl) hw hl, hfr,
      htex isSwap rfl (fun _ _ _ _ _ _ _ _ _ => rfl) (fun _ => rfl)]
    simp [hmem, windowCalls, bufferCalls, shaderCalls, teardownCalls, isSwap]
  · rw [main_countP A w isPoll 1 (fun _ => rfl) hw hl, hfr,
      htex isPoll rfl (fun _ _ _ _ _ _ _ _ _ => rfl) (fun _ => rfl)]
    simp [hmem, windowCalls, bufferCalls, shaderCalls, teardownCalls, isPoll]
  · rw [main_exit_ok A w hw hl]
    simp [hmem]
  · rw [main_countP A w isDeleteVertexArrays 0 (fun _ => rfl) hw hl, hfr,
      htex isDeleteVertexArrays rfl (fun _ _ _ _ _ _ _ _ _ => rfl) (fun _ => rfl)]
    simp [hmem, windowCalls, bufferCalls, shaderCalls, teardownCalls, isDeleteVertexArrays]
  · rw [main_countP A w isDeleteBuffers 0 (fun _ => rfl) hw hl, hfr,
      htex isDeleteBuffers rfl (fun _ _ _ _ _ _ _ _ _ => rfl) (fun _ => rfl)]
    simp [hmem, windowCalls, bufferCalls, shaderCalls, teardownCalls, isDeleteBuffers]
  · rw [main_countP A w isDeleteProgram 0 (fun _ => rfl) hw hl, hfr,
      htex isDeleteProgram rfl (fun _ _ _ _ _ _ _ _ _ => rfl) (fun _ => rfl)]
    simp [hmem, windowCalls, bufferCalls, shaderCalls, teardownCalls, isDeleteProgram]
  · rw [main_countP A w isDeleteTextures 0 (fun _ => rfl) hw hl, hfr,
      htex isDeleteTextures rfl (fun _ _ _ _ _ _ _ _ _ => rfl) (fun _ => rfl)]
    simp [hmem, windowCalls, bufferCalls, shaderCalls, teardownCalls, isDeleteTextures]
  · rw [main_countP A w isTerminate 0 (fun _ => rfl) hw hl, hfr,
      htex isTerminate rfl (fun _ _ _ _ _ _ _ _ _ => rfl) (fun _ => rfl)]
    simp [hmem, windowCalls, bufferCalls, shaderCalls, teardownCalls, isTerminate]

theorem loop_frames_witness :
    (sampleWorld true true none [false, false, true, false]).windowOk = true ∧
    (sampleWorld true true none [false, false, true, false]).loaderOk = true ∧
    (sampleWorld true true none [false, false, true, false]).shouldClose
      = List.replicate 2 false ++ true :: [false] ∧
    List.countP isShouldClose
      (main symArith (sampleWorld true true none [false, false, true, false])).calls = 2 + 1 ∧
    List.countP isClear
      (main symArith (sampleWorld true true none [false, false, true, false])).calls = 2 ∧
    List.countP isDraw
      (main symArith (sampleWorld true true none [false, false, true, false])).calls = 2 * 2 ∧
    List.countP isSwap
      (main symArith (sampleWorld true true none [false, false, true, false])).calls = 2 ∧
    List.countP isPoll
      (main symArith (sampleWorld true true none [false, false, true, false])).calls = 2 ∧
    (main symArith (sampleWorld true true none [false, false, true, false])).exit = some 0 ∧
    List.countP isDeleteVertexArrays
      (main symArith (sampleWorld true true none [false, false, true, false])).calls = 1 ∧
    List.countP isDeleteBuffers
      (main symArith (sampleWorld true true none [false, false, true, false])).calls = 1 ∧
    List.countP isDeleteProgram
      (main symArith (sampleWorld true true none [false, false, true, false])).calls = 1 ∧
    List.countP isDeleteTextures
      (main symArith (sampleWorld true true none [false, false, true, false])).calls = 1 ∧
    List.countP isTerminate
      (main symArith (sampleWorld true true none [false, false, true, false])).calls = 1 :=
  ⟨rfl, rfl, rfl,
    (loop_frames symArith (sampleWorld true true none [false, false, true, false])
      2 [false] rfl rfl rfl).2⟩

/-- C7: on every run that leaves the render loop, whatever the number of frames and the
result of the image decode, the run ends with: the last close-flag query,
`glDeleteVertexArrays(1, &VAO)`, `glDeleteBuffers(1, &VBO)`, `glDeleteProgram(shaderProgram)`,
`glDeleteTextures(1, &texture)`, `glfwTerminate`, and `main` returns `0`.  None of these
five calls occurs earlier in the run, and the four released names are the ones created
during initialisation. -/
theorem teardown_once (A : Arith F) (w : World F) (hw : w.windowOk = true)
    (hl : w.loaderOk = true) (hleft : true ∈ w.shouldClose) :
    (∃ before : List (Call F),
      (main A w).calls =
        before ++
          [ Call.glfwWindowShouldClose,
            Call.glDeleteVertexArrays 1 w.VAO,
            Call.glDeleteBuffers 1 w.VBO,
            Call.glDeleteProgram w.shaderProgram,
            Call.glDeleteTextures 1 w.texture,
            Call.glfwTerminate ] ∧
      List.countP isDeleteVertexArrays before = 0 ∧
      List.countP isDeleteBuffers before = 0 ∧
      List.countP isDeleteProgram before = 0 ∧
      List.countP isDeleteTextures before = 0 ∧
      List.countP isTerminate before = 0 ∧
      Call.glGenVertexArrays 1 w.VAO ∈ before ∧
      Call.glGenBuffers 1 w.VBO ∈ before ∧
      Call.glCreateProgram w.shaderProgram ∈ before ∧
      Call.glGenTextures 1 w.texture ∈ before) ∧
    List.countP isDeleteVertexArrays (main A w).calls = 1 ∧
    List.countP isDeleteBuffers (main A w).calls = 1 ∧
    List.countP isDeleteProgram (main A w).calls = 1 ∧
    List.countP isDeleteTextures (main A w).calls = 1 ∧
    List.countP isTerminate (main A w).calls = 1 ∧
    (main A w).exit = some 0 := by
  have hsplit : (main A w).calls =
      (windowCalls ++ [Call.glfwMakeContextCurrent, Call.gladLoadGLLoader] ++
        bufferCalls w ++ textureCalls w ++ shaderCalls w ++
        (List.range (framesRendered w.shouldClose)).flatMap
          (fun i => Call.glfwWindowShouldClose :: frameCalls A w (w.clock i))) ++
        [ Call.glfwWindowShouldClose,
          Call.glDeleteVertexArrays 1 w.VAO,
          Call.glDeleteBuffers 1 w.VBO,
          Call.glDeleteProgram w.shaderProgram,
          Call.glDeleteTextures 1 w.texture,
          Call.glfwTerminate ] := by
    rw [main_calls_ok A w hw hl, renderLoop_calls]
    simp [hleft, teardownCalls]
  have t1 : List.countP isDeleteVertexArrays (main A w).calls = 1 := by
    rw [main_countP A w isDeleteVertexArrays 0 (fun _ => rfl) hw hl,
      textureCalls_countP w isDeleteVertexArrays rfl (fun _ _ _ _ _ _ _ _ _ => rfl)
        (fun _ => rfl)]
    simp [hleft, windowCalls, bufferCalls, shaderCalls, teardownCalls, isDeleteVertexArrays]
  have t2 : List.countP isDeleteBuffers (main A w).calls = 1 := by
    rw [main_countP A w isDeleteBuffers 0 (fun _ => rfl) hw hl,
      textureCalls_countP w isDeleteBuffers rfl (fun _ _ _ _ _ _ _ _ _ => rfl)
        (fun _ => rfl)]
    simp [hleft, windowCalls, bufferCalls, shaderCalls, teardownCalls, isDeleteBuffers]
  have t3 : List.countP isDeleteProgram (main A w).calls = 1 := by
    rw [main_countP A w isDeleteProgram 0 (fun _ => rfl) hw hl,
      textureCalls_countP w isDeleteProgram rfl (fun _ _ _ _ _ _ _ _ _ => rfl)
        (fun _ => rfl)]
    simp [hleft, windowCalls, bufferCalls, shaderCalls, teardownCalls, isDeleteProgram]
  have t4 : List.countP isDeleteTextures (main A w).calls = 1 := by
    rw [main_countP A w isDeleteTextures 0 (fun _ => rfl) hw hl,
      textureCalls_countP w isDeleteTextures rfl (fun _ _ _ _ _ _ _ _ _ => rfl)
        (fun _ => rfl)]
    simp [hleft, windowCalls, bufferCalls, shaderCalls, teardownCalls, isDeleteTextures]
  have t5 : List.countP isTerminate (main A w).calls = 1 := by
    rw [main_countP A w isTerminate 0 (fun _ => rfl) hw hl,
      textureCalls_countP w isTerminate rfl (fun _ _ _ _ _ _ _ _ _ => rfl)
        (fun _ => rfl)]
    simp [hleft, windowCalls, bufferCalls, shaderCalls, teardownCalls, isTerminate]
  have before_zero : ∀ (p : Call F → Bool) (b e : List (Call F)),
      (main A w).calls = b ++ e → List.countP p (main A w).calls = 1 →
      List.countP p e = 1 → List.countP p b = 0 := by
    intro p b e h1 h2 h3
    rw [h1, List.countP_append, h3] at h2
    omega
  refine ⟨⟨_, hsplit, before_zero _ _ _ hsplit t1 rfl, before_zero _ _ _ hsplit t2 rfl,
    before_zero _ _ _ hsplit t3 rfl, before_zero _ _ _ hsplit t4 rfl,
    before_zero _ _ _ hsplit t5 rfl, ?_, ?_, ?_, ?_⟩, t1, t2, t3, t4, t5, ?_⟩
  · simp [bufferCalls]
  · simp [bufferCalls]
  · simp [shaderCalls]
  · simp [textureCalls]
  · rw [main_exit_ok A w hw hl]
    simp [hleft]

theorem teardown_once_witness :
    (sampleWorld true true none [false, true]).windowOk = true ∧
    (sampleWorld true true none [false, true]).loaderOk = true ∧
    true ∈ (sampleWorld true true none [false, true]).shouldClose ∧
    List.countP isDeleteVertexArrays
      (main symArith (sampleWorld true true none [false, true])).calls = 1 ∧
    List.countP isDeleteBuffers
      (main symArith (sampleWorld true true none [false, true])).calls = 1 ∧
    List.countP isDeleteProgram
      (main symArith (sampleWorld true true none [false, true])).calls = 1 ∧
    List.countP isDeleteTextures
      (main symArith (sampleWorld true true none [false, true])).calls = 1 ∧
    List.countP isTerminate
      (main symArith (sampleWorld true true none [false, true])).calls = 1 ∧
    (main symArith (sampleWorld true true none [false, true])).exit = some 0 :=
  ⟨rfl, rfl, by decide,
    (teardown_once symArith (sampleWorld true true none [false, true])
      rfl rfl (by decide)).2⟩

/-! ## Draw calls and offsets -/

/-- C4: in a run that gets past initialisation the draw calls are, frame after frame,
exactly two: `glDrawArrays(GL_TRIANGLES, 0, 3)` issued with the offset uniform holding
`(0.5 + sin(time) * 0.5, 0, 0)` for the time read in that frame, then
`glDrawArrays(GL_TRIANGLES, 3, 3)` issued with it holding `(-0.5, 0, 0)`, the same in every
frame.  The two vertex ranges are disjoint and together are the six vertices of the
buffer. -/
theorem two_draws_per_frame (A : Arith F) (w : World F) (hw : w.windowOk = true)
    (hl : w.loaderOk = true) :
    drawsOf w.offsetLoc none (main A w).calls =
      (List.range (framesRendered w.shouldClose)).flatMap (fun i =>
        [ (⟨.GL_TRIANGLES, 0, 3,
            some (A.add (A.lit 0.5) (A.mul (A.sin (w.clock i)) (A.lit 0.5)),
              A.lit 0.0, A.lit 0.0)⟩ : Draw F),
          ⟨.GL_TRIANGLES, 3, 3, some (A.lit (-0.5), A.lit 0.0, A.lit 0.0)⟩ ]) ∧
    (∀ t, List.countP isDraw (frameCalls A w t) = 2) ∧
    List.countP isDraw (main A w).calls = 2 * framesRendered w.shouldClose ∧
    (∀ o1 o2 : Option (F × F × F),
      Draw.vertexRange ⟨.GL_TRIANGLES, 0, 3, o1⟩ = [0, 1, 2] ∧
      Draw.vertexRange ⟨.GL_TRIANGLES, 3, 3, o2⟩ = [3, 4, 5] ∧
      List.Disjoint (Draw.vertexRange ⟨.GL_TRIANGLES, 0, 3, o1⟩)
        (Draw.vertexRange ⟨.GL_TRIANGLES, 3, 3, o2⟩) ∧
      Draw.vertexRange ⟨.GL_TRIANGLES, 0, 3, o1⟩ ++ Draw.vertexRange ⟨.GL_TRIANGLES, 3, 3, o2⟩
        = List.range (vertices.length / 5)) := by
  refine ⟨drawsOf_main A w hw hl, fun _ => rfl, ?_, ?_⟩
  · rw [main_countP A w isDraw 2 (fun _ => rfl) hw hl,
      textureCalls_countP w isDraw rfl (fun _ _ _ _ _ _ _ _ _ => rfl) (fun _ => rfl)]
    by_cases h : true ∈ w.shouldClose <;>
      simp [h, windowCalls, bufferCalls, shaderCalls, teardownCalls, isDraw] <;> omega
  · intro o1 o2
    refine ⟨rfl, rfl, ?_, rfl⟩
    have e1 : Draw.vertexRange (⟨.GL_TRIANGLES, 0, 3, o1⟩ : Draw F) = [0, 1, 2] := rfl
    have e2 : Draw.vertexRange (⟨.GL_TRIANGLES, 3, 3, o2⟩ : Draw F) = [3, 4, 5] := rfl
    rw [e1, e2]
    intro a h1 h2
    simp at h1 h2
    omega

theorem two_draws_per_frame_witness :
    (sampleWorld true true none [false, false, true]).windowOk = true ∧
    (sampleWorld true true none [false, false, true]).loaderOk = true ∧
    drawsOf 0 none (main symArith (sampleWorld true true none [false, false, true])).calls =
      [ ⟨.GL_TRIANGLES, 0, 3,
          some (Sym.add (Sym.lit 0.5) (Sym.mul (Sym.sin (Sym.clock 0)) (Sym.lit 0.5)),
            Sym.lit 0.0, Sym.lit 0.0)⟩,
        ⟨.GL_TRIANGLES, 3, 3, some (Sym.lit (-0.5), Sym.lit 0.0, Sym.lit 0.0)⟩,
        ⟨.GL_TRIANGLES, 0, 3,
          some (Sym.add (Sym.lit 0.5) (Sym.mul (Sym.sin (Sym.clock 1)) (Sym.lit 0.5)),
            Sym.lit 0.0, Sym.lit 0.0)⟩,
        ⟨.GL_TRIANGLES, 3, 3, some (Sym.lit (-0.5), Sym.lit 0.0, Sym.lit 0.0)⟩ ] :=
  ⟨rfl, rfl,
    (two_draws_per_frame symArith (sampleWorld true true none [false, false, true])
      rfl rfl).1⟩

/-- C3: with the float operations read over the reals, in every rendered frame `i` the
draw call for triangle 1 (vertices `0..2`) is issued with the offset uniform holding
`(x, 0, 0)` where `x = 0.5 + 0.5 * sin (clock i)` and `0 ≤ x ≤ 1`. -/
theorem triangle1_offset (w : World ℝ) (hw : w.windowOk = true) (hl : w.loaderOk = true)
    (i : Nat) (hi : i < framesRendered w.shouldClose) :
    ∃ x : ℝ,
      (drawsOf w.offsetLoc none
        (main ⟨fun q => (q : ℝ), fun a b => a + b, fun a b => a * b, Real.sin⟩ w).calls)[2 * i]?
        = some ⟨.GL_TRIANGLES, 0, 3, some (x, 0, 0)⟩ ∧
      x = 0.5 + 0.5 * Real.sin (w.clock i) ∧ 0 ≤ x ∧ x ≤ 1 := by
  refine ⟨0.5 + 0.5 * Real.sin (w.clock i), ?_, rfl, ?_, ?_⟩
  · rw [drawsOf_main _ w hw hl, getElem?_flatMap_pair]
    have hr : (List.range (framesRendered w.shouldClose))[i]? = some i := by
      simp [hi]
    rw [hr]
    simp only [Option.map_some']
    norm_num
    ring
  · have := Real.neg_one_le_sin (w.clock i)
    linarith
  · have := Real.sin_le_one (w.clock i)
    linarith

theorem triangle1_offset_witness :
    ∃ x : ℝ,
      (drawsOf 0 none
        (main ⟨fun q => (q : ℝ), fun a b => a + b, fun a b => a * b, Real.sin⟩
          { windowOk := true, loaderOk := true, image := none, VAO := 1, VBO := 1,
            texture := 1, vertexShader := 1, fragmentShader := 2, shaderProgram := 3,
            vertexCompiled := true, fragmentCompiled := true, linked := true,
            offsetLoc := 0, textureLoc := 1, shouldClose := [false, false, true],
            clock := fun i => (i : ℝ) }).calls)[2 * 1]?
        = some ⟨.GL_TRIANGLES, 0, 3, some (x, 0, 0)⟩ ∧
      x = 0.5 + 0.5 * Real.sin ((1 : ℕ) : ℝ) ∧ 0 ≤ x ∧ x ≤ 1 :=
  triangle1_offset
    { windowOk := true, loaderOk := true, image := none, VAO := 1, VBO := 1,
      texture := 1, vertexShader := 1, fragmentShader := 2, shaderProgram := 3,
      vertexCompiled := true, fragmentCompiled := true, linked := true,
      offsetLoc := 0, textureLoc := 1, shouldClose := [false, false, true],
      clock := fun i => (i : ℝ) }
    rfl rfl 1 (by decide)

/-! ## Vertex buffer -/

/-- The loop only depends on the world through the calls of a frame and the clock. -/
theorem renderLoop_congr (A : Arith F) (w v : World F)
    (hf : ∀ t, frameCalls A v t = frameCalls A w t) (hclock : v.clock = w.clock)
    (l : List Bool) (n : Nat) :
    renderLoop A v l n = renderLoop A w l n := by
  induction l generalizing n with
  | nil => rfl
  | cons b rest ih =>
    cases b
    · simp only [renderLoop, ih, hf, hclock]
    · rfl

/-- Up to the location argument of the uniform calls, the loop does not depend on the
locations handed out by `glGetUniformLocation`. -/
theorem renderLoop_eraseLoc (A : Arith F) (w v : World F)
    (hf : ∀ t, (frameCalls A v t).map eraseLoc = (frameCalls A w t).map eraseLoc)
    (hclock : v.clock = w.clock) (l : List Bool) (n : Nat) :
    (renderLoop A v l n).1.map eraseLoc = (renderLoop A w l n).1.map eraseLoc ∧
    (renderLoop A v l n).2 = (renderLoop A w l n).2 := by
  induction l generalizing n with
  | nil => exact ⟨rfl, rfl⟩
  | cons b rest ih =>
    cases b
    · simp only [renderLoop, List.map_cons, List.map_append, hf, hclock, (ih (n + 1)).1,
        (ih (n + 1)).2, and_self]
    · exact ⟨rfl, rfl⟩

theorem stdout_eraseLoc (l : List (Call F)) : stdout (l.map eraseLoc) = stdout l := by
  induction l with
  | nil => rfl
  | cons c cs ih => cases c <;> simp [stdout, eraseLoc, ih]

/-- Two worlds that agree on everything the program reads, except possibly the uniform
locations, give the same run up to the location arguments. -/
theorem main_eraseLoc (A : Arith F) (w v : World F) (hwin : v.windowOk = w.windowOk)
    (hld : v.loaderOk = w.loaderOk) (hb : bufferCalls v = bufferCalls w)
    (ht : textureCalls v = textureCalls w) (hs : shaderCalls v = shaderCalls w)
    (htd : teardownCalls v = teardownCalls w) (hsc : v.shouldClose = w.shouldClose)
    (hclock : v.clock = w.clock)
    (hf : ∀ t, (frameCalls A v t).map eraseLoc = (frameCalls A w t).map eraseLoc) :
    (main A v).calls.map eraseLoc = (main A w).calls.map eraseLoc ∧
    (main A v).exit = (main A w).exit := by
  have hloop := renderLoop_eraseLoc A w v hf hclock w.shouldClose 0
  cases hw : w.windowOk
  · simp [main, hw, hwin]
  · cases hl : w.loaderOk
    · simp [main, hw, hl, hwin, hld]
    · have hwv : v.windowOk = true := by rw [hwin, hw]
      have hlv : v.loaderOk = true := by rw [hld, hl]
      rw [main_calls_ok A v hwv hlv, main_calls_ok A w hw hl, main_exit_ok A v hwv hlv,
        main_exit_ok A w hw hl, hb, ht, hs, htd, hsc]
      simp only [List.map_append, hloop.1, and_self]

/-- C9: the compile and link status are never read: changing them changes nothing in the
run (calls with their arguments, output, exit value); if the uniform locations handed
back change as well, the run still issues the same calls up to the location argument of
`glUniform1i` / `glUniform3f`, prints the same and returns the same.  In a run that gets
past initialisation the two locations are looked up exactly once, right after
`glLinkProgram` and before the first close-flag query.  What follows the look-ups is: the
two `glDeleteShader`, then for every rendered frame the query and the fourteen calls of
the frame, among them `glUniform1i(textureLoc, 0)` and two `glUniform3f(offsetLoc, ...)`
with the values looked up, then the last query and, if the loop was left, teardown.  So
the run holds one `glUniform1i` and two `glUniform3f` per rendered frame, and each of them
uses the value looked up for `ourTexture` / `offset`. -/
theorem shader_status_unchecked (A : Arith F) (w : World F) (a b c : Bool) :
    main A { w with vertexCompiled := a, fragmentCompiled := b, linked := c } = main A w ∧
    (∀ l1 l2 : Int,
      (main A { w with vertexCompiled := a, fragmentCompiled := b, linked := c,
                       offsetLoc := l1, textureLoc := l2 }).calls.map eraseLoc
        = (main A w).calls.map eraseLoc ∧
      stdout (main A { w with vertexCompiled := a, fragmentCompiled := b, linked := c,
                              offsetLoc := l1, textureLoc := l2 }).calls
        = stdout (main A w).calls ∧
      (main A { w with vertexCompiled := a, fragmentCompiled := b, linked := c,
                       offsetLoc := l1, textureLoc := l2 }).exit = (main A w).exit) ∧
    (w.windowOk = true → w.loaderOk = true →
      (∃ before after : List (Call F),
        (main A w).calls =
          before ++
            [ Call.glLinkProgram w.shaderProgram,
              Call.glGetUniformLocation w.shaderProgram "offset",
              Call.glGetUniformLocation w.shaderProgram "ourTexture" ] ++ after ∧
        List.countP isUniformLookup before = 0 ∧
        List.countP isShouldClose before = 0 ∧
        List.countP isUniformLookup after = 0 ∧
        List.countP isUniform1i before = 0 ∧
        List.countP isUniform3f before = 0 ∧
        after =
          [ Call.glDeleteShader w.vertexShader, Call.glDeleteShader w.fragmentShader ] ++
          (List.range (framesRendered w.shouldClose)).flatMap (fun i =>
            [ Call.glfwWindowShouldClose,
              Call.glClearColor (A.lit 0.1) (A.lit 0.1) (A.lit 0.2) (A.lit 1.0),
              Call.glClear .GL_COLOR_BUFFER_BIT,
              Call.glUseProgram w.shaderProgram,
              Call.glBindVertexArray w.VAO,
              Call.glActiveTexture .GL_TEXTURE0,
              Call.glBindTexture .GL_TEXTURE_2D w.texture,
              Call.glUniform1i w.textureLoc 0,
              Call.glfwGetTime,
              Call.glUniform3f w.offsetLoc
                (A.add (A.lit 0.5) (A.mul (A.sin (w.clock i)) (A.lit 0.5)))
                (A.lit 0.0) (A.lit 0.0),
              Call.glDrawArrays .GL_TRIANGLES 0 3,
              Call.glUniform3f w.offsetLoc (A.lit (-0.5)) (A.lit 0.0) (A.lit 0.0),
              Call.glDrawArrays .GL_TRIANGLES 3 3,
              Call.glfwSwapBuffers,
              Call.glfwPollEvents ]) ++
          [ Call.glfwWindowShouldClose ] ++
          (if true ∈ w.shouldClose then
            [ Call.glDeleteVertexArrays 1 w.VAO,
              Call.glDeleteBuffers 1 w.VBO,
              Call.glDeleteProgram w.shaderProgram,
              Call.glDeleteTextures 1 w.texture,
              Call.glfwTerminate ]
           else [])) ∧
      List.countP isUniformLookup (main A w).calls = 2 ∧
      (∀ l x y z, Call.glUniform3f l x y z ∈ (main A w).calls → l = w.offsetLoc) ∧
      (∀ l v, Call.glUniform1i l v ∈ (main A w).calls → l = w.textureLoc) ∧
      List.countP isUniform1i (main A w).calls = framesRendered w.shouldClose ∧
      List.countP isUniform3f (main A w).calls = 2 * framesRendered w.shouldClose ∧
      (∀ t, ∃ x, List.filter (fun c => isUniform1i c || isUniform3f c) (frameCalls A w t) =
        [ Call.glUniform1i w.textureLoc 0,
          Call.glUniform3f w.offsetLoc x (A.lit 0.0) (A.lit 0.0),
          Call.glUniform3f w.offsetLoc (A.lit (-0.5)) (A.lit 0.0) (A.lit 0.0) ])) := by
  refine ⟨?_, ?_, ?_⟩
  · have hloop := renderLoop_congr A w
      { w with vertexCompiled := a, fragmentCompiled := b, linked := c }
      (fun _ => rfl) rfl w.shouldClose 0
    unfold main
    simp only [hloop]
    rfl
  · intro l1 l2
    have h := main_eraseLoc A w
      { w with vertexCompiled := a, fragmentCompiled := b, linked := c,
               offsetLoc := l1, textureLoc := l2 }
      rfl rfl rfl rfl rfl rfl rfl rfl (fun _ => rfl)
    refine ⟨h.1, ?_, h.2⟩
    rw [← stdout_eraseLoc, h.1, stdout_eraseLoc]
  · intro hw hl
    have hcount : List.countP isUniformLookup (main A w).calls = 2 := by
      rw [main_countP A w isUniformLookup 0 (fun _ => rfl) hw hl,
        textureCalls_countP w isUniformLookup rfl (fun _ _ _ _ _ _ _ _ _ => rfl)
          (fun _ => rfl)]
      by_cases h : true ∈ w.shouldClose <;>
        simp [h, windowCalls, bufferCalls, shaderCalls, teardownCalls, isUniformLookup]
    refine ⟨⟨windowCalls ++ [Call.glfwMakeContextCurrent, Call.gladLoadGLLoader] ++
        bufferCalls w ++ textureCalls w ++
        [ Call.glCreateShader .GL_VERTEX_SHADER w.vertexShader,
          Call.glShaderSource w.vertexShader 1 vertexShaderSource,
          Call.glCompileShader w.vertexShader,
          Call.glCreateShader .GL_FRAGMENT_SHADER w.fragmentShader,
          Call.glShaderSource w.fragmentShader 1 fragmentShaderSource,
          Call.glCompileShader w.fragmentShader,
          Call.glCreateProgram w.shaderProgram,
          Call.glAttachShader w.shaderProgram w.vertexShader,
          Call.glAttachShader w.shaderProgram w.fragmentShader ],
        [ Call.glDeleteShader w.vertexShader, Call.glDeleteShader w.fragmentShader ] ++
          (renderLoop A w w.shouldClose 0).1 ++
          (if true ∈ w.shouldClose then teardownCalls w else []), ?_, ?_, ?_, ?_, ?_, ?_, ?_⟩,
        hcount, ?_, ?_, ?_, ?_, ?_⟩
    · rw [main_calls_ok A w hw hl]
      simp [shaderCalls]
    · simp only [List.countP_append,
        textureCalls_countP w isUniformLookup rfl (fun _ _ _ _ _ _ _ _ _ => rfl)
          (fun _ => rfl)]
      rfl
    · simp only [List.countP_append,
        textureCalls_countP w isShouldClose rfl (fun _ _ _ _ _ _ _ _ _ => rfl)
          (fun _ => rfl)]
      rfl
    · simp only [List.countP_append,
        renderLoop_countP A w isUniformLookup 0 (fun _ => rfl)]
      by_cases h : true ∈ w.shouldClose <;> simp [h, teardownCalls, isUniformLookup]
    · simp only [List.countP_append,
        textureCalls_countP w isUniform1i rfl (fun _ _ _ _ _ _ _ _ _ => rfl)
          (fun _ => rfl)]
      rfl
    · simp only [List.countP_append,
        textureCalls_countP w isUniform3f rfl (fun _ _ _ _ _ _ _ _ _ => rfl)
          (fun _ => rfl)]
      rfl
    · rw [renderLoop_calls]
      by_cases h : true ∈ w.shouldClose <;> simp [h, frameCalls, teardownCalls]
    · intro l x y z hm
      rw [main_calls_ok A w hw hl, renderLoop_calls] at hm
      cases hi : w.image <;> by_cases h : true ∈ w.shouldClose <;>
        simp [h, hi, windowCalls, bufferCalls, textureCalls, shaderCalls, teardownCalls,
          frameCalls] at hm <;>
        (obtain ⟨_, _, hm⟩ := hm; rcases hm with hm | hm <;> exact hm.1)
    · intro l v hm
      rw [main_calls_ok A w hw hl, renderLoop_calls] at hm
      cases hi : w.image <;> by_cases h : true ∈ w.shouldClose <;>
        simp [h, hi, windowCalls, bufferCalls, textureCalls, shaderCalls, teardownCalls,
          frameCalls] at hm <;>
        exact hm.2.1
    · rw [main_countP A w isUniform1i 1 (fun _ => rfl) hw hl,
        textureCalls_countP w isUniform1i rfl (fun _ _ _ _ _ _ _ _ _ => rfl)
          (fun _ => rfl)]
      by_cases h : true ∈ w.shouldClose <;>
        simp [h, windowCalls, bufferCalls, shaderCalls, teardownCalls, isUniform1i]
    · rw [main_countP A w isUniform3f 2 (fun _ => rfl) hw hl,
        textureCalls_countP w isUniform3f rfl (fun _ _ _ _ _ _ _ _ _ => rfl)
          (fun _ => rfl)]
      by_cases h : true ∈ w.shouldClose <;>
        simp [h, windowCalls, bufferCalls, shaderCalls, teardownCalls, isUniform3f] <;>
        omega
    · intro t
      exact ⟨A.add (A.lit 0.5) (A.mul (A.sin t) (A.lit 0.5)), rfl⟩

theorem shader_status_unchecked_witness :
    main symArith
        { sampleWorld true true none [false, true] with
          vertexCompiled := false, fragmentCompiled := false, linked := false }
      = main symArith (sampleWorld true true none [false, true]) ∧
    (sampleWorld true true none [false, true]).windowOk = true ∧
    (sampleWorld true true none [false, true]).loaderOk = true ∧
    List.countP isUniformLookup
      (main symArith (sampleWorld true true none [false, true])).calls = 2 ∧
    List.countP isUniform1i
      (main symArith (sampleWorld true true none [false, true])).calls = 1 ∧
    List.countP isUniform3f
      (main symArith (sampleWorld true true none [false, true])).calls = 2 * 1 :=
  have h := shader_status_unchecked symArith (sampleWorld true true none [false, true])
    false false false
  ⟨h.1, rfl, rfl, (h.2.2 rfl rfl).2.1, (h.2.2 rfl rfl).2.2.2.2.1,
    (h.2.2 rfl rfl).2.2.2.2.2.1⟩

end TexturedTriangles
